import Mathlib

/-!
Verification of the chatbot backend (`src/app.py`): a Flask app exposing
`/ask`, `/history` and `/clear_history` over a SQLite table `queries`
with columns (id INTEGER PRIMARY KEY AUTOINCREMENT, question, answer,
timestamp).  The embedding below translates the database helpers and the
three route handlers into pure Lean functions over an explicit `Store`
state.  Exceptions (sqlite errors, the Gemini SDK call failing, Python
attribute errors) are modelled with `Except PyExc`; an uncaught Python
exception corresponds to a route returning `.error`.
-/

namespace Chatbot

/-- One row of the `queries` table. -/
structure QueryRecord where
  id : Nat
  question : String
  answer : String
  timestamp : String
deriving Repr, DecidableEq

/-- The SQLite database state.  `rows` holds the table rows in insertion
order; `seq` is the AUTOINCREMENT sequence (the next row gets id
`seq + 1`, and `DELETE FROM` does not reset it); `available` models
whether the underlying storage can be opened at all. -/
structure Store where
  rows : List QueryRecord
  seq : Nat
  available : Bool
deriving Repr, DecidableEq

/-- Python exceptions that can arise in the handlers: a sqlite storage
failure, an attribute error (for example calling `.strip()` on `None`),
or any failure raised by the external Gemini call. -/
inductive PyExc where
  | storageError (msg : String)
  | attributeError (msg : String)
  | gatewayError (msg : String)
deriving Repr, DecidableEq

/-- Python `str(exc)`: the message carried by the exception. -/
def PyExc.str : PyExc → String
  | .storageError m => m
  | .attributeError m => m
  | .gatewayError m => m

/-- A JSON value as Python sees it after `request.get_json`. -/
inductive PyVal where
  | vstr (s : String)
  | vnum (n : Int)
  | vbool (b : Bool)
  | vnull
deriving Repr, DecidableEq

/-- Python type name of the value, used in attribute-error messages. -/
def PyVal.typeName : PyVal → String
  | .vstr _ => "str"
  | .vnum _ => "int"
  | .vbool _ => "bool"
  | .vnull => "NoneType"

/-- The whitespace trimming performed by Python `str.strip()` with no
argument: remove leading and trailing whitespace characters. -/
def pyStrip (s : String) : String :=
  ⟨((s.data.dropWhile Char.isWhitespace).reverse.dropWhile
      Char.isWhitespace).reverse⟩

/-- Python `value.strip()`: trims whitespace of a string, and raises an
AttributeError on every non-string value. -/
def PyVal.strip : PyVal → Except PyExc String
  | .vstr s => .ok (pyStrip s)
  | v => .error (.attributeError (v.typeName ++ " object has no attribute strip"))

/-- Python `dict.get(key, default)` on the parsed JSON body. -/
def dictGet (body : List (String × PyVal)) (key : String) (dflt : PyVal) : PyVal :=
  match body.find? (fun kv => kv.1 == key) with
  | some kv => kv.2
  | none => dflt

/-- Outcome of the external call `genai.GenerativeModel(...).generate_content(q)`
followed by reading `resp.text`: either the generated text, or any
exception the SDK raised. -/
inductive GatewayOutcome where
  | success (text : String)
  | failure (exc : PyExc)
deriving Repr, DecidableEq

/-- Python truthiness of `os.getenv(...)`: `None` and the empty string
are falsy. -/
def pyTruthy : Option String → Bool
  | none => false
  | some s => s != ""

/-- Message of the sqlite exception raised when the database file cannot
be opened. -/
def dbUnavailableMsg : String := "unable to open database file"

/-- `_init_db_if_missing`: `CREATE TABLE IF NOT EXISTS` — idempotent
schema creation.  The `Store` model always carries the schema, so on an
available store this changes nothing; on an unavailable store sqlite
raises. -/
def _init_db_if_missing (st : Store) : Except PyExc Store :=
  if st.available then .ok st else .error (.storageError dbUnavailableMsg)

/-- `_save_query_to_db`: INSERT INTO queries (question, answer, timestamp)
VALUES (?, ?, ?).  `now` is the value of `datetime.datetime.utcnow().isoformat()`
at the time of the call.  The row id is assigned by AUTOINCREMENT. -/
def _save_query_to_db (st : Store) (question_text answer_text now : String) :
    Except PyExc Store :=
  if st.available then
    .ok { st with
          rows := st.rows ++
            [{ id := st.seq + 1, question := question_text,
               answer := answer_text, timestamp := now }],
          seq := st.seq + 1 }
  else .error (.storageError dbUnavailableMsg)

/-- `_clear_db_queries`: DELETE FROM queries.  Removes every row but keeps
the table (and the AUTOINCREMENT sequence, which DELETE does not reset). -/
def _clear_db_queries (st : Store) : Except PyExc Store :=
  if st.available then .ok { st with rows := [] }
  else .error (.storageError dbUnavailableMsg)

/-- Body of the JSON response of the `/ask` route: either
an error object or an answer object. -/
inductive AskBody where
  | errorBody (error : String)
  | answerBody (answer : String)
deriving Repr, DecidableEq

/-- HTTP response of the `/ask` route. -/
structure AskResp where
  status : Nat
  body : AskBody
deriving Repr, DecidableEq

/-- HTTP response of the `/history` route: the JSON list under the
`history` key. -/
structure HistoryResp where
  status : Nat
  history : List QueryRecord
deriving Repr, DecidableEq

/-- HTTP response of the `/clear_history` route. -/
structure ClearResp where
  status : Nat
  success : Bool
  message : String
deriving Repr, DecidableEq

/-- Insert a record into a list kept in descending-id order. -/
def insertDesc (r : QueryRecord) : List QueryRecord → List QueryRecord
  | [] => [r]
  | x :: xs => if x.id ≤ r.id then r :: x :: xs else x :: insertDesc r xs

/-- Sort rows by id descending — the `ORDER BY id DESC` of the SELECT in
the history route. -/
def sortByIdDesc : List QueryRecord → List QueryRecord
  | [] => []
  | x :: xs => insertDesc x (sortByIdDesc xs)

/-- `ask_route` (`POST /ask`).  Parameters beyond the store: the value of
the `GEMINI_API_KEY` environment variable, the outcome the external
Gemini call would have, the current UTC timestamp string, and the parsed
JSON request body.  Returns the HTTP response (or the uncaught Python
exception) together with the resulting database state. -/
def ask_route (gemini_env_key : Option String) (gw : GatewayOutcome)
    (now : String) (body_json : List (String × PyVal)) (st : Store) :
    Except PyExc AskResp × Store :=
  match (dictGet body_json "question" (.vstr "")).strip with
  | .error exc => (.error exc, st)
  | .ok q_text =>
    if q_text = "" then
      (.ok { status := 400, body := .errorBody "Empty question" }, st)
    else if pyTruthy gemini_env_key = false then
      let answer_msg :=
        "GEMINI_API_KEY is not set on the server. Set it as an environment variable."
      match _save_query_to_db st q_text answer_msg now with
      | .error exc => (.error exc, st)
      | .ok st2 => (.ok { status := 500, body := .answerBody answer_msg }, st2)
    else
      match gw with
      | .success answer_text =>
        match _save_query_to_db st q_text answer_text now with
        | .ok st2 => (.ok { status := 200, body := .answerBody answer_text }, st2)
        | .error exc =>
          let err_msg := "Error calling Gemini: " ++ exc.str
          match _save_query_to_db st q_text err_msg now with
          | .error exc2 => (.error exc2, st)
          | .ok st3 => (.ok { status := 500, body := .answerBody err_msg }, st3)
      | .failure exc =>
        let err_msg := "Error calling Gemini: " ++ exc.str
        match _save_query_to_db st q_text err_msg now with
        | .error exc2 => (.error exc2, st)
        | .ok st3 => (.ok { status := 500, body := .answerBody err_msg }, st3)

/-- `history_route` (`GET /history`): SELECT id, question, answer,
timestamp FROM queries ORDER BY id DESC LIMIT 50, returned with
status 200.  Reading the store does not change it. -/
def history_route (st : Store) : Except PyExc HistoryResp :=
  if st.available then
    .ok { status := 200, history := (sortByIdDesc st.rows).take 50 }
  else .error (.storageError dbUnavailableMsg)

/-- `clear_history_route` (`POST /clear_history`). -/
def clear_history_route (st : Store) : Except PyExc ClearResp × Store :=
  match _clear_db_queries st with
  | .error exc => (.error exc, st)
  | .ok st2 => (.ok { status := 200, success := true, message := "History cleared" }, st2)

/-- Store wellformedness: row ids are strictly increasing in insertion
order, and no row id exceeds the AUTOINCREMENT sequence. -/
def Store.Wf (st : Store) : Prop :=
  st.rows.Pairwise (fun a b => a.id < b.id) ∧ ∀ r ∈ st.rows, r.id ≤ st.seq

/-! Helper lemmas. -/

theorem insertDesc_of_forall_lt (r : QueryRecord) (l : List QueryRecord)
    (h : ∀ x ∈ l, r.id < x.id) : insertDesc r l = l ++ [r] := by
  induction l with
  | nil => rfl
  | cons x xs ih =>
    have hx : r.id < x.id := h x (List.mem_cons_self x xs)
    simp only [insertDesc, if_neg (Nat.not_le_of_lt hx)]
    rw [ih (fun y hy => h y (List.mem_cons_of_mem x hy))]
    simp

theorem sortByIdDesc_of_pairwise (l : List QueryRecord)
    (h : l.Pairwise (fun a b => a.id < b.id)) : sortByIdDesc l = l.reverse := by
  induction l with
  | nil => rfl
  | cons x xs ih =>
    rcases List.pairwise_cons.mp h with ⟨hx, hxs⟩
    simp only [sortByIdDesc, ih hxs]
    rw [insertDesc_of_forall_lt x xs.reverse
      (fun y hy => hx y (List.mem_reverse.mp hy))]
    simp

theorem save_ok_of_available (st : Store) (q a now : String)
    (hav : st.available = true) :
    _save_query_to_db st q a now =
      .ok { st with
            rows := st.rows ++ [{ id := st.seq + 1, question := q,
                                  answer := a, timestamp := now }],
            seq := st.seq + 1 } := by
  simp [_save_query_to_db, hav]

theorem save_wf (st st2 : Store) (q a now : String) (hwf : st.Wf)
    (hok : _save_query_to_db st q a now = .ok st2) :
    st2.Wf ∧
      st2.rows = st.rows ++ [{ id := st.seq + 1, question := q,
                               answer := a, timestamp := now }] ∧
      st2.seq = st.seq + 1 ∧ st2.available = st.available := by
  by_cases hav : st.available = true
  · rw [save_ok_of_available st q a now hav] at hok
    cases hok
    refine ⟨⟨?_, ?_⟩, rfl, rfl, rfl⟩
    · rw [List.pairwise_append]
      refine ⟨hwf.1, List.pairwise_singleton _ _, ?_⟩
      intro x hx y hy
      simp only [List.mem_singleton] at hy
      subst hy
      exact Nat.lt_succ_of_le (hwf.2 x hx)
    · intro r hr
      rcases List.mem_append.mp hr with hr | hr
      · exact Nat.le_succ_of_le (hwf.2 r hr)
      · simp only [List.mem_singleton] at hr
        subst hr
        exact Nat.le_refl _
  · simp [_save_query_to_db, hav] at hok

/-- On an available store, a request with a string question whose trim is
non-empty always appends exactly one record, whose question is the
trimmed input, whose answer is the answer returned in the response, and
whose timestamp is the current time. -/
theorem ask_appends (key : Option String) (gw : GatewayOutcome) (now : String)
    (body : List (String × PyVal)) (st : Store) (s : String)
    (hq : dictGet body "question" (.vstr "") = .vstr s)
    (hs : pyStrip s ≠ "") (hav : st.available = true) :
    ∃ ans status, ask_route key gw now body st =
      (.ok { status := status, body := .answerBody ans },
       { st with
         rows := st.rows ++ [{ id := st.seq + 1, question := pyStrip s,
                               answer := ans, timestamp := now }],
         seq := st.seq + 1 }) := by
  cases hkey : pyTruthy key with
  | false =>
    refine ⟨"GEMINI_API_KEY is not set on the server. Set it as an environment variable.",
      500, ?_⟩
    simp [ask_route, hq, PyVal.strip, hs, hkey, _save_query_to_db, hav]
  | true =>
    cases gw with
    | success t =>
      refine ⟨t, 200, ?_⟩
      simp [ask_route, hq, PyVal.strip, hs, hkey, _save_query_to_db, hav]
    | failure e =>
      refine ⟨"Error calling Gemini: " ++ e.str, 500, ?_⟩
      simp [ask_route, hq, PyVal.strip, hs, hkey, _save_query_to_db, hav]

/-! Claim theorems. -/

/-- C1: for every question string that is non-empty after trimming,
`ask_route` appends exactly one new record to the store, on every code
path — gateway success, gateway failure, and missing service credential
alike (the credential `key` and the gateway outcome `gw` are universally
quantified). -/
theorem claim_C1_ask_appends_exactly_one (key : Option String)
    (gw : GatewayOutcome) (now : String) (body : List (String × PyVal))
    (st : Store) (s : String)
    (hq : dictGet body "question" (.vstr "") = .vstr s)
    (hs : pyStrip s ≠ "") (hav : st.available = true) :
    ∃ r, (ask_route key gw now body st).2.rows = st.rows ++ [r] := by
  obtain ⟨ans, status, heq⟩ := ask_appends key gw now body st s hq hs hav
  exact ⟨_, by rw [heq]⟩

theorem claim_C1_witness :
    dictGet [("question", PyVal.vstr " 2+2? ")] "question" (.vstr "") =
        .vstr " 2+2? " ∧
    pyStrip " 2+2? " ≠ "" ∧
    ∃ r, (ask_route (some "k") (.success "4") "t0"
        [("question", PyVal.vstr " 2+2? ")]
        { rows := [], seq := 0, available := true }).2.rows =
      ([] : List QueryRecord) ++ [r] :=
  ⟨by decide, by decide,
   claim_C1_ask_appends_exactly_one (some "k") (.success "4") "t0"
     [("question", PyVal.vstr " 2+2? ")]
     { rows := [], seq := 0, available := true } " 2+2? "
     (by decide) (by decide) rfl⟩

/-- C2: a request whose question is empty or whitespace after trimming
gets status 400 with body error "Empty question" and the store is left
unchanged, on every configuration, gateway outcome and store state. -/
theorem claim_C2_empty_question_rejected (key : Option String)
    (gw : GatewayOutcome) (now : String) (body : List (String × PyVal))
    (st : Store) (s : String)
    (hq : dictGet body "question" (.vstr "") = .vstr s)
    (hs : pyStrip s = "") :
    ask_route key gw now body st =
      (.ok { status := 400, body := .errorBody "Empty question" }, st) := by
  simp [ask_route, hq, PyVal.strip, hs]

theorem claim_C2_witness :
    dictGet [("question", PyVal.vstr "  ")] "question" (.vstr "") =
        .vstr "  " ∧
    pyStrip "  " = "" ∧
    ask_route (some "k") (.success "4") "t0"
        [("question", PyVal.vstr "  ")]
        { rows := [], seq := 0, available := true } =
      (.ok { status := 400, body := .errorBody "Empty question" },
       { rows := [], seq := 0, available := true }) :=
  ⟨by decide, by decide,
   claim_C2_empty_question_rejected (some "k") (.success "4") "t0"
     [("question", PyVal.vstr "  ")]
     { rows := [], seq := 0, available := true } "  " (by decide) (by decide)⟩

/-- C3: when the service credential is absent (falsy), a non-empty
trimmed question yields status 500 whose answer is the fixed
configuration-error text, and the persisted record carries that same
text as its answer field. -/
theorem claim_C3_missing_credential (key : Option String)
    (gw : GatewayOutcome) (now : String) (body : List (String × PyVal))
    (st : Store) (s : String)
    (hq : dictGet body "question" (.vstr "") = .vstr s)
    (hs : pyStrip s ≠ "") (hkey : pyTruthy key = false)
    (hav : st.available = true) :
    ask_route key gw now body st =
      (.ok { status := 500,
             body := .answerBody "GEMINI_API_KEY is not set on the server. Set it as an environment variable." },
       { st with
         rows := st.rows ++
           [{ id := st.seq + 1, question := pyStrip s,
              answer := "GEMINI_API_KEY is not set on the server. Set it as an environment variable.",
              timestamp := now }],
         seq := st.seq + 1 }) := by
  simp [ask_route, hq, PyVal.strip, hs, hkey, _save_query_to_db, hav]

theorem claim_C3_witness :
    dictGet [("question", PyVal.vstr "hi")] "question" (.vstr "") =
        .vstr "hi" ∧
    pyStrip "hi" ≠ "" ∧ pyTruthy none = false ∧
    ask_route none (.success "4") "t0" [("question", PyVal.vstr "hi")]
        { rows := [], seq := 0, available := true } =
      (.ok { status := 500,
             body := .answerBody "GEMINI_API_KEY is not set on the server. Set it as an environment variable." },
       { rows := [{ id := 1, question := "hi",
                    answer := "GEMINI_API_KEY is not set on the server. Set it as an environment variable.",
                    timestamp := "t0" }],
         seq := 1, available := true }) :=
  ⟨by decide, by decide, rfl,
   claim_C3_missing_credential none (.success "4") "t0"
     [("question", PyVal.vstr "hi")]
     { rows := [], seq := 0, available := true } "hi"
     (by decide) (by decide) rfl rfl⟩

/-- C4: on any gateway failure the request is not aborted: the answer is
the failure description prefixed with an explanatory label
("Error calling Gemini: " followed by the details), a record with that
answer is persisted, and the status is 500. -/
theorem claim_C4_gateway_failure_recorded (key : Option String)
    (exc : PyExc) (now : String) (body : List (String × PyVal))
    (st : Store) (s : String)
    (hq : dictGet body "question" (.vstr "") = .vstr s)
    (hs : pyStrip s ≠ "") (hkey : pyTruthy key = true)
    (hav : st.available = true) :
    ask_route key (.failure exc) now body st =
      (.ok { status := 500,
             body := .answerBody ("Error calling Gemini: " ++ exc.str) },
       { st with
         rows := st.rows ++
           [{ id := st.seq + 1, question := pyStrip s,
              answer := "Error calling Gemini: " ++ exc.str,
              timestamp := now }],
         seq := st.seq + 1 }) := by
  simp [ask_route, hq, PyVal.strip, hs, hkey, _save_query_to_db, hav]

theorem claim_C4_witness :
    dictGet [("question", PyVal.vstr "hi")] "question" (.vstr "") =
        .vstr "hi" ∧
    pyStrip "hi" ≠ "" ∧ pyTruthy (some "k") = true ∧
    ask_route (some "k") (.failure (.gatewayError "quota exceeded")) "t0"
        [("question", PyVal.vstr "hi")]
        { rows := [], seq := 0, available := true } =
      (.ok { status := 500,
             body := .answerBody "Error calling Gemini: quota exceeded" },
       { rows := [{ id := 1, question := "hi",
                    answer := "Error calling Gemini: quota exceeded",
                    timestamp := "t0" }],
         seq := 1, available := true }) :=
  ⟨by decide, by decide, rfl,
   claim_C4_gateway_failure_recorded (some "k")
     (.gatewayError "quota exceeded") "t0"
     [("question", PyVal.vstr "hi")]
     { rows := [], seq := 0, available := true } "hi"
     (by decide) (by decide) rfl rfl⟩

/-- C9: when the underlying storage is unavailable, every operation that
touches the store ends in the sqlite exception propagating out of the
handler (an unhandled server failure) with the store unchanged — no
converted answer-text response is produced on any such path. -/
theorem claim_C9_storage_failure_propagates (key : Option String)
    (gw : GatewayOutcome) (now : String) (body : List (String × PyVal))
    (st : Store) (s : String)
    (hq : dictGet body "question" (.vstr "") = .vstr s)
    (hs : pyStrip s ≠ "") (hunav : st.available = false) :
    ask_route key gw now body st =
      (.error (.storageError dbUnavailableMsg), st) ∧
    history_route st = .error (.storageError dbUnavailableMsg) ∧
    clear_history_route st = (.error (.storageError dbUnavailableMsg), st) := by
  refine ⟨?_, ?_, ?_⟩
  · cases hkey : pyTruthy key <;> cases gw <;>
      simp [ask_route, hq, PyVal.strip, hs, hkey, _save_query_to_db, hunav]
  · simp [history_route, hunav]
  · simp [clear_history_route, _clear_db_queries, hunav]

theorem claim_C9_witness :
    dictGet [("question", PyVal.vstr "hi")] "question" (.vstr "") =
        .vstr "hi" ∧
    pyStrip "hi" ≠ "" ∧
    (ask_route (some "k") (.success "4") "t0"
        [("question", PyVal.vstr "hi")]
        { rows := [], seq := 0, available := false } =
      (.error (.storageError dbUnavailableMsg),
       { rows := [], seq := 0, available := false }) ∧
     history_route { rows := [], seq := 0, available := false } =
       .error (.storageError dbUnavailableMsg) ∧
     clear_history_route { rows := [], seq := 0, available := false } =
       (.error (.storageError dbUnavailableMsg),
        { rows := [], seq := 0, available := false })) :=
  ⟨by decide, by decide,
   claim_C9_storage_failure_propagates (some "k") (.success "4") "t0"
     [("question", PyVal.vstr "hi")]
     { rows := [], seq := 0, available := false } "hi"
     (by decide) (by decide) rfl⟩

/-- C5: on a wellformed available store with N records, the history
route returns status 200 with min(N, 50) records ordered by strictly
descending id (the reverse of insertion order, truncated to 50); the
empty store yields the empty list; and composing with any
record-creating call of the ask route, the newest returned record
carries that call's stored question and answered text. -/
theorem claim_C5_history_recent (st : Store) (hwf : st.Wf)
    (hav : st.available = true) :
    history_route st = .ok { status := 200, history := st.rows.reverse.take 50 } ∧
    (st.rows.reverse.take 50).length = min st.rows.length 50 ∧
    (st.rows.reverse.take 50).Pairwise (fun a b => b.id < a.id) ∧
    (st.rows = [] → history_route st = .ok { status := 200, history := [] }) ∧
    (∀ key gw now body s st2 resp,
      dictGet body "question" (.vstr "") = .vstr s → pyStrip s ≠ "" →
      ask_route key gw now body st = (.ok resp, st2) →
      ∀ ans, resp.body = .answerBody ans →
        ∃ items, history_route st2 = .ok { status := 200, history := items } ∧
          ∃ r, items.head? = some r ∧ r.question = pyStrip s ∧ r.answer = ans) := by
  have hist : history_route st =
      .ok { status := 200, history := st.rows.reverse.take 50 } := by
    simp [history_route, hav, sortByIdDesc_of_pairwise st.rows hwf.1]
  refine ⟨hist, ?_, ?_, ?_, ?_⟩
  · simp [List.length_take, Nat.min_comm]
  · exact List.Pairwise.sublist (List.take_sublist 50 _)
      (List.pairwise_reverse.mpr hwf.1)
  · intro h
    rw [hist, h]
    simp
  · intro key gw now body s st2 resp hq hs hask ans hans
    obtain ⟨ans0, status0, heq⟩ := ask_appends key gw now body st s hq hs hav
    rw [hask] at heq
    have h1 : Except.ok (ε := PyExc) resp =
        .ok { status := status0, body := .answerBody ans0 } :=
      congrArg Prod.fst heq
    have h2 : st2 =
        { st with
          rows := st.rows ++ [{ id := st.seq + 1, question := pyStrip s,
                                answer := ans0, timestamp := now }],
          seq := st.seq + 1 } :=
      congrArg Prod.snd heq
    injection h1 with h1
    subst h1
    simp only [AskResp.mk.injEq] at hans
    have hok : _save_query_to_db st (pyStrip s) ans0 now = .ok st2 := by
      rw [save_ok_of_available st (pyStrip s) ans0 now hav, h2]
    obtain ⟨hwf2, hrows, hseq, hav2⟩ := save_wf st st2 (pyStrip s) ans0 now hwf hok
    refine ⟨st2.rows.reverse.take 50, ?_,
      ⟨st.seq + 1, pyStrip s, ans0, now⟩, ?_, rfl, ?_⟩
    · simp [history_route, hav2, hav, sortByIdDesc_of_pairwise st2.rows hwf2.1]
    · rw [hrows]
      simp [List.reverse_append]
    · simpa using hans

theorem claim_C5_witness :
    Store.Wf { rows := [{ id := 1, question := "q1", answer := "a1", timestamp := "t1" },
                        { id := 2, question := "q2", answer := "a2", timestamp := "t2" }],
               seq := 2, available := true } ∧
    (history_route { rows := [{ id := 1, question := "q1", answer := "a1", timestamp := "t1" },
                              { id := 2, question := "q2", answer := "a2", timestamp := "t2" }],
                     seq := 2, available := true } =
      .ok { status := 200,
            history := [{ id := 2, question := "q2", answer := "a2", timestamp := "t2" },
                        { id := 1, question := "q1", answer := "a1", timestamp := "t1" }] }) :=
  ⟨⟨by simp, by simp⟩,
   (claim_C5_history_recent
     { rows := [{ id := 1, question := "q1", answer := "a1", timestamp := "t1" },
                { id := 2, question := "q2", answer := "a2", timestamp := "t2" }],
       seq := 2, available := true } ⟨by simp, by simp⟩ rfl).1⟩

/-- C6: clearing removes all records (for any prior contents) and keeps
the schema so a later insert still succeeds; it is idempotent; it
responds 200 with the confirmation body; and the history of the cleared
store is the empty list. -/
theorem claim_C6_clear_history (st : Store) (hav : st.available = true) :
    clear_history_route st =
      (.ok { status := 200, success := true, message := "History cleared" },
       { st with rows := [] }) ∧
    clear_history_route { st with rows := [] } =
      (.ok { status := 200, success := true, message := "History cleared" },
       { st with rows := [] }) ∧
    history_route { st with rows := [] } = .ok { status := 200, history := [] } ∧
    (∀ q a now, _save_query_to_db { st with rows := [] } q a now =
      .ok { rows := [{ id := st.seq + 1, question := q, answer := a,
                       timestamp := now }],
            seq := st.seq + 1, available := st.available }) := by
  refine ⟨?_, ?_, ?_, fun q a now => ?_⟩ <;>
    simp [clear_history_route, _clear_db_queries, history_route,
      _save_query_to_db, sortByIdDesc, hav]

theorem claim_C6_witness :
    clear_history_route { rows := [{ id := 1, question := "q", answer := "a",
                                     timestamp := "t" }],
                          seq := 1, available := true } =
      (.ok { status := 200, success := true, message := "History cleared" },
       { rows := [], seq := 1, available := true }) :=
  (claim_C6_clear_history
    { rows := [{ id := 1, question := "q", answer := "a", timestamp := "t" }],
      seq := 1, available := true } rfl).1

/-- C7: a record appended with a given question and answer is returned
by the history route as its newest item with the identical question and
answer text, and its timestamp is the insertion-time clock value, hence
bounded by any instants known to surround the append. -/
theorem claim_C7_round_trip (st st2 : Store) (q a now tb ta : String)
    (hwf : st.Wf) (hok : _save_query_to_db st q a now = .ok st2)
    (h1 : tb ≤ now) (h2 : now ≤ ta) :
    ∃ items, history_route st2 = .ok { status := 200, history := items } ∧
      ∃ r, items.head? = some r ∧ r.question = q ∧ r.answer = a ∧
        r.timestamp = now ∧ tb ≤ r.timestamp ∧ r.timestamp ≤ ta := by
  have hav : st.available = true := by
    by_cases h : st.available = true
    · exact h
    · simp [_save_query_to_db, h] at hok
  obtain ⟨hwf2, hrows, hseq, hav2⟩ := save_wf st st2 q a now hwf hok
  refine ⟨st2.rows.reverse.take 50, ?_,
    ⟨st.seq + 1, q, a, now⟩, ?_, rfl, rfl, rfl, h1, h2⟩
  · simp [history_route, hav2, hav, sortByIdDesc_of_pairwise st2.rows hwf2.1]
  · rw [hrows]
    simp [List.reverse_append]

theorem claim_C7_witness :
    Store.Wf { rows := [], seq := 0, available := true } ∧
    ("b1" ≤ "b1") ∧
    ∃ items, history_route { rows := [{ id := 1, question := "q1",
                                        answer := "a1", timestamp := "b1" }],
                             seq := 1, available := true } =
        .ok { status := 200, history := items } ∧
      ∃ r, items.head? = some r ∧ r.question = "q1" ∧ r.answer = "a1" ∧
        r.timestamp = "b1" ∧ "b1" ≤ r.timestamp ∧ r.timestamp ≤ "b1" :=
  ⟨⟨by simp, by simp⟩, le_refl _,
   claim_C7_round_trip { rows := [], seq := 0, available := true }
     { rows := [{ id := 1, question := "q1", answer := "a1", timestamp := "b1" }],
       seq := 1, available := true }
     "q1" "a1" "b1" "b1" "b1" ⟨by simp, by simp⟩ rfl (le_refl _) (le_refl _)⟩

/-- C8: the store invariants are preserved by every mutating operation:
an insert appends one fully populated record (all four fields set) at a
strictly larger id while leaving every existing record unchanged, and
deletion is all-or-nothing — clearing empties the table entirely. -/
theorem claim_C8_store_invariants (st : Store) (hwf : st.Wf) :
    (∀ q a now st2, _save_query_to_db st q a now = .ok st2 →
      st2.Wf ∧ st2.rows = st.rows ++
        [{ id := st.seq + 1, question := q, answer := a, timestamp := now }]) ∧
    (∀ st2, _clear_db_queries st = .ok st2 → st2.Wf ∧ st2.rows = []) := by
  refine ⟨fun q a now st2 hok => ?_, fun st2 hok => ?_⟩
  · obtain ⟨h1, h2, _, _⟩ := save_wf st st2 q a now hwf hok
    exact ⟨h1, h2⟩
  · by_cases hav : st.available = true
    · simp only [_clear_db_queries, if_pos hav, Except.ok.injEq] at hok
      subst hok
      exact ⟨⟨List.Pairwise.nil, by simp⟩, rfl⟩
    · simp [_clear_db_queries, hav] at hok

theorem claim_C8_witness :
    Store.Wf { rows := [{ id := 1, question := "q", answer := "a",
                          timestamp := "t" }],
               seq := 1, available := true } ∧
    ((∀ q a now st2,
        _save_query_to_db { rows := [{ id := 1, question := "q", answer := "a",
                                       timestamp := "t" }],
                            seq := 1, available := true } q a now = .ok st2 →
        st2.Wf ∧ st2.rows =
          [{ id := 1, question := "q", answer := "a", timestamp := "t" }] ++
            [{ id := 2, question := q, answer := a, timestamp := now }]) ∧
     (∀ st2,
        _clear_db_queries { rows := [{ id := 1, question := "q", answer := "a",
                                       timestamp := "t" }],
                            seq := 1, available := true } = .ok st2 →
        st2.Wf ∧ st2.rows = [])) :=
  ⟨⟨by simp, by simp⟩,
   claim_C8_store_invariants
     { rows := [{ id := 1, question := "q", answer := "a", timestamp := "t" }],
       seq := 1, available := true } ⟨by simp, by simp⟩⟩

/-- C10: a request body whose question key maps to JSON null makes
`ask_route` raise an uncaught AttributeError while trimming the value:
an unhandled server failure with no record created, not the documented
400 response. -/
theorem claim_C10_nonstring_question_uncaught (key : Option String)
    (gw : GatewayOutcome) (now : String) (st : Store) :
    ask_route key gw now [("question", PyVal.vnull)] st =
      (.error (.attributeError "NoneType object has no attribute strip"), st) := by
  rfl

end Chatbot
